import Mathlib

/-!
Verification of the bus-proxyd policy loader (`src/bus-proxyd/bus-policy.c`).

The development shallowly embeds the C data model and control flow:

* `PolicyItem` embeds `struct PolicyItem` (one allow/deny rule record);
* `Policy` embeds `struct Policy` (the four rule containers; the two
  hashmaps are association lists wrapped in `Option`, `none` standing for
  the `NULL`, never-allocated hashmap);
* `stepLoad` embeds one iteration of the token loop of `file_load`:
  the `switch (state)` over the parser state for one consumed token;
* `runLoad` embeds the `for (;;)` loop of `file_load`, with explicit fuel
  (`none` = the loop has not returned after that many iterations);
* `policy_load` embeds the loader, `policyFree` the lifecycle manager.

Machine integers: uids/gids are `Nat` (only equality of keys matters here,
no arithmetic overflows occur in the source).  Errors are the C negative
return codes as `Int`.
-/

namespace BusPolicy

/-- Enum `PolicyItemType` from the source; the source spells the first
constructor with a leading underscore. -/
inductive PolicyItemType where
  | POLICY_ITEM_TYPE_UNSET
  | POLICY_ITEM_ALLOW
  | POLICY_ITEM_DENY
deriving DecidableEq, Repr

/-- Enum `PolicyItemClass` from the source; the source spells the first
constructor with a leading underscore and the fourth
`POLICY_ITEM_OWN_` followed by `PREFIX` (shortened here to `PFX`). -/
inductive PolicyItemClass where
  | POLICY_ITEM_CLASS_UNSET
  | POLICY_ITEM_SEND
  | POLICY_ITEM_RECV
  | POLICY_ITEM_OWN
  | POLICY_ITEM_OWN_PFX
  | POLICY_ITEM_USER
  | POLICY_ITEM_GROUP
deriving DecidableEq, Repr

/-- Embeds `struct PolicyItem`: one allow/deny rule record.  The intrusive
`items_next` link is represented by membership in the `List`s of
`Policy`; `class` is a Lean keyword, so the field is `iclass`.
`message_type` keeps the C convention that `0` means "not set". -/
structure PolicyItem where
  type : PolicyItemType := .POLICY_ITEM_TYPE_UNSET
  iclass : PolicyItemClass := .POLICY_ITEM_CLASS_UNSET
  interface : Option String := none
  member : Option String := none
  error : Option String := none
  name : Option String := none
  path : Option String := none
  message_type : Nat := 0
  uid : Nat := 0
  gid : Nat := 0
  uid_valid : Bool := false
  gid_valid : Bool := false
deriving DecidableEq, Repr

/-- A hashmap from numeric id to an intrusive item list, embedded as an
association list; the surrounding `Option` models the `Hashmap *`
pointer, `none` being `NULL` (never allocated). -/
abbrev ItemHashmap := List (Nat × List PolicyItem)

/-- Embeds `struct Policy`: the four rule containers. -/
structure Policy where
  default_items : List PolicyItem := []
  mandatory_items : List PolicyItem := []
  user_items : Option ItemHashmap := none
  group_items : Option ItemHashmap := none
deriving DecidableEq, Repr

/-- Embeds `hashmap_get`: look a key up in an association list. -/
def hashmap_get (m : ItemHashmap) (k : Nat) : Option (List PolicyItem) :=
  match m.find? (fun e => e.1 = k) with
  | some e => some e.2
  | none => none

/-- Embeds `hashmap_replace`: store a value under a key, overwriting an
existing binding for that key if there is one. -/
def hashmap_replace (m : ItemHashmap) (k : Nat) (v : List PolicyItem) : ItemHashmap :=
  if m.any (fun e => e.1 = k) then
    m.map (fun e => if e.1 = k then (k, v) else e)
  else
    (k, v) :: m

/-- The token kinds of the external tokenizer interface (`xml.h`).
Modelled from the spec: the Token Stream yields document-end, tag-open,
tag-close, self-closing-tag-close, attribute-name, attribute-value and
text tokens; malformed markup yields a token-stream-level error
(`XML_ERROR` with the negative code), which the parser propagates
verbatim. -/
inductive XmlToken where
  | XML_END
  | XML_TAG_OPEN (name : String)
  | XML_TAG_CLOSE (name : String)
  | XML_TAG_CLOSE_EMPTY
  | XML_ATTRIBUTE_NAME (name : String)
  | XML_ATTRIBUTE_VALUE (value : String)
  | XML_TEXT (text : String)
  | XML_ERROR (e : Int)
deriving DecidableEq, Repr

/-- The parser states of `file_load`. -/
inductive ParseState where
  | STATE_OUTSIDE
  | STATE_BUSCONFIG
  | STATE_POLICY
  | STATE_POLICY_CONTEXT
  | STATE_POLICY_USER
  | STATE_POLICY_GROUP
  | STATE_POLICY_OTHER_ATTRIBUTE
  | STATE_ALLOW_DENY
  | STATE_ALLOW_DENY_INTERFACE
  | STATE_ALLOW_DENY_MEMBER
  | STATE_ALLOW_DENY_ERROR
  | STATE_ALLOW_DENY_PATH
  | STATE_ALLOW_DENY_MESSAGE_TYPE
  | STATE_ALLOW_DENY_NAME
  | STATE_ALLOW_DENY_OTHER_ATTRIBUTE
  | STATE_OTHER
deriving DecidableEq, Repr

/-- The policy scope categories of `file_load`. -/
inductive PolicyCategory where
  | POLICY_CATEGORY_NONE
  | POLICY_CATEGORY_DEFAULT
  | POLICY_CATEGORY_MANDATORY
  | POLICY_CATEGORY_USER
  | POLICY_CATEGORY_GROUP
deriving DecidableEq, Repr

/-- The local variables of one `file_load` invocation that the token loop
threads along, together with the store being mutated. -/
structure LoadState where
  p : Policy
  state : ParseState := .STATE_OUTSIDE
  policy_category : PolicyCategory := .POLICY_CATEGORY_NONE
  policy_user : Option String := none
  policy_group : Option String := none
  i : Option PolicyItem := none
  n_other : Nat := 0
deriving DecidableEq, Repr

/-- Outcome of one iteration of the token loop: continue with updated
locals, `return 0` with the mutated store, `return` a negative code with
the store as mutated so far, or hit a failed `assert` (process abort). -/
inductive StepResult where
  | next (ls : LoadState)
  | done (p : Policy)
  | fail (e : Int) (p : Policy)
  | crash
deriving DecidableEq, Repr

/-- Error number `EINVAL`; the loop returns `-EINVAL` on grammar errors. -/
def EINVAL : Int := 22

/-- Character set `WHITESPACE` from the support headers: space, tab,
newline, carriage return. -/
def WHITESPACE : List Char := [' ', '\t', '\n', '\r']

/-- Embeds `in_charset`: every character of the string drawn from the
set. -/
def in_charset (s : String) (cs : List Char) : Bool :=
  s.toList.all (fun c => cs.contains c)

/-- Embeds `startswith` from the support headers. -/
def startswith (s pre : String) : Bool :=
  List.isPrefixOf pre.toList s.toList

/-- Embeds `u = strchr(name, '_'); u++`: the substring after the first
underscore (the empty string if there is none, a case `file_load` rules
out by `assert(u)` since the name starts with `send_` or `receive_`). -/
def afterFirstUnderscore (s : String) : String :=
  match s.toList.dropWhile (fun c => c ≠ '_') with
  | [] => ""
  | _ :: rest => String.mk rest

/-- Modelled from the spec: `bus_message_type_from_string`
(`bus-internal.h`, not part of this file) resolves a symbolic
message-type name via a closed lookup table
(method-call / method-return / error / signal); unrecognized names fail. -/
def bus_message_type_from_string (s : String) : Option Nat :=
  if s = "method_call" then some 1
  else if s = "method_return" then some 2
  else if s = "error" then some 3
  else if s = "signal" then some 4
  else none

/-- The commit performed when an `<allow>`/`<deny>` element closes with a
class set (`file_load`, close of allow/deny): prepend the record to the
container selected by the enclosing policy's category; with category
`NONE` no branch fires and the record is attached to nothing. -/
def commitItem (ls : LoadState) (it : PolicyItem) : LoadState :=
  match ls.policy_category with
  | .POLICY_CATEGORY_DEFAULT =>
      { ls with p := { ls.p with default_items := it :: ls.p.default_items },
                state := .STATE_POLICY, i := none }
  | .POLICY_CATEGORY_MANDATORY =>
      { ls with p := { ls.p with default_items := it :: ls.p.default_items },
                state := .STATE_POLICY, i := none }
  | .POLICY_CATEGORY_USER =>
      -- hashmap_ensure_allocated; first = hashmap_get(user_items, uid);
      -- LIST_PREPEND(items, first, i); hashmap_replace(user_items, uid, first)
      let m := ls.p.user_items.getD []
      let first := (hashmap_get m it.uid).getD []
      { ls with p := { ls.p with user_items := some (hashmap_replace m it.uid (it :: first)) },
                state := .STATE_POLICY, i := none }
  | .POLICY_CATEGORY_GROUP =>
      let m := ls.p.group_items.getD []
      let first := (hashmap_get m it.gid).getD []
      { ls with p := { ls.p with group_items := some (hashmap_replace m it.gid (it :: first)) },
                state := .STATE_POLICY, i := none }
  | .POLICY_CATEGORY_NONE =>
      { ls with state := .STATE_POLICY, i := none }

/-- The attribute-name handling inside `STATE_ALLOW_DENY` once the class
`ic` of a recognized attribute shape has been determined: the
class-conflict check, `i->class = ic`, and the suffix dispatch of
`file_load`. -/
def stepAllowDenyAttr (ls : LoadState) (it : PolicyItem) (name : String)
    (ic : PolicyItemClass) : StepResult :=
  if it.iclass ≠ .POLICY_ITEM_CLASS_UNSET ∧ ic ≠ it.iclass then
    .fail (-EINVAL) ls.p
  else
    let it' := { it with iclass := ic }
    if ic = .POLICY_ITEM_SEND ∨ ic = .POLICY_ITEM_RECV then
      let u := afterFirstUnderscore name
      if u = "interface" then
        .next { ls with i := some it', state := .STATE_ALLOW_DENY_INTERFACE }
      else if u = "member" then
        .next { ls with i := some it', state := .STATE_ALLOW_DENY_MEMBER }
      else if u = "error" then
        .next { ls with i := some it', state := .STATE_ALLOW_DENY_ERROR }
      else if u = "path" then
        .next { ls with i := some it', state := .STATE_ALLOW_DENY_PATH }
      else if u = "type" then
        .next { ls with i := some it', state := .STATE_ALLOW_DENY_MESSAGE_TYPE }
      else if (u = "destination" ∧ ic = .POLICY_ITEM_SEND) ∨
              (u = "sender" ∧ ic = .POLICY_ITEM_RECV) then
        .next { ls with i := some it', state := .STATE_ALLOW_DENY_NAME }
      else
        -- unknown send_/receive_ suffix: logged, value skipped,
        -- but i->class has already been overwritten above
        .next { ls with i := some it', state := .STATE_ALLOW_DENY_OTHER_ATTRIBUTE }
    else
      .next { ls with i := some it', state := .STATE_ALLOW_DENY_NAME }

/-- Case `STATE_OUTSIDE` of the token loop of `file_load`. -/
def stepOutside (ls : LoadState) : XmlToken → StepResult
  | .XML_TAG_OPEN name =>
      if name = "busconfig" then .next { ls with state := .STATE_BUSCONFIG }
      else .fail (-EINVAL) ls.p
  | .XML_END => .done ls.p
  | .XML_TEXT txt =>
      if in_charset txt WHITESPACE then .next ls else .fail (-EINVAL) ls.p
  | _ => .fail (-EINVAL) ls.p

/-- Case `STATE_BUSCONFIG` of the token loop of `file_load`. -/
def stepBusconfig (ls : LoadState) : XmlToken → StepResult
  | .XML_TAG_OPEN name =>
      if name = "policy" then
        .next { ls with state := .STATE_POLICY,
                        policy_category := .POLICY_CATEGORY_NONE,
                        policy_user := none, policy_group := none }
      else
        .next { ls with state := .STATE_OTHER, n_other := 0 }
  | .XML_TAG_CLOSE_EMPTY => .next { ls with state := .STATE_OUTSIDE }
  | .XML_TAG_CLOSE name =>
      if name = "busconfig" then .next { ls with state := .STATE_OUTSIDE }
      else .fail (-EINVAL) ls.p
  | .XML_TEXT txt =>
      if in_charset txt WHITESPACE then .next ls else .fail (-EINVAL) ls.p
  | _ => .fail (-EINVAL) ls.p

/-- Case `STATE_POLICY` of the token loop of `file_load`. -/
def stepPolicy (ls : LoadState) : XmlToken → StepResult
  | .XML_ATTRIBUTE_NAME name =>
      if name = "context" then .next { ls with state := .STATE_POLICY_CONTEXT }
      else if name = "user" then .next { ls with state := .STATE_POLICY_USER }
      else if name = "group" then .next { ls with state := .STATE_POLICY_GROUP }
      else
        -- unknown <policy> attribute: warning logged, value skipped
        .next { ls with state := .STATE_POLICY_OTHER_ATTRIBUTE }
  | .XML_TAG_CLOSE_EMPTY => .next { ls with state := .STATE_BUSCONFIG }
  | .XML_TAG_CLOSE name =>
      if name = "policy" then .next { ls with state := .STATE_BUSCONFIG }
      else .fail (-EINVAL) ls.p
  | .XML_TAG_OPEN name =>
      if name = "allow" then
        -- assert(!i); i = new0(PolicyItem, 1); i->type = it
        .next { ls with i := some { type := .POLICY_ITEM_ALLOW },
                        state := .STATE_ALLOW_DENY }
      else if name = "deny" then
        .next { ls with i := some { type := .POLICY_ITEM_DENY },
                        state := .STATE_ALLOW_DENY }
      else .fail (-EINVAL) ls.p
  | .XML_TEXT txt =>
      if in_charset txt WHITESPACE then .next ls else .fail (-EINVAL) ls.p
  | _ => .fail (-EINVAL) ls.p

/-- Case `STATE_POLICY_CONTEXT` of the token loop of `file_load`. -/
def stepPolicyContext (ls : LoadState) : XmlToken → StepResult
  | .XML_ATTRIBUTE_VALUE v =>
      if v = "default" then
        .next { ls with policy_category := .POLICY_CATEGORY_DEFAULT,
                        state := .STATE_POLICY }
      else if v = "mandatory" then
        .next { ls with policy_category := .POLICY_CATEGORY_MANDATORY,
                        state := .STATE_POLICY }
      else .fail (-EINVAL) ls.p
  | _ => .fail (-EINVAL) ls.p

/-- Case `STATE_POLICY_USER` of the token loop of `file_load`. -/
def stepPolicyUser (ls : LoadState) : XmlToken → StepResult
  | .XML_ATTRIBUTE_VALUE v =>
      .next { ls with policy_user := some v, state := .STATE_POLICY }
  | _ => .fail (-EINVAL) ls.p

/-- Case `STATE_POLICY_GROUP` of the token loop of `file_load`. -/
def stepPolicyGroup (ls : LoadState) : XmlToken → StepResult
  | .XML_ATTRIBUTE_VALUE v =>
      .next { ls with policy_group := some v, state := .STATE_POLICY }
  | _ => .fail (-EINVAL) ls.p

/-- Case `STATE_POLICY_OTHER_ATTRIBUTE` of the token loop of
`file_load`. -/
def stepPolicyOtherAttribute (ls : LoadState) : XmlToken → StepResult
  | .XML_ATTRIBUTE_VALUE _ => .next { ls with state := .STATE_POLICY }
  | _ => .fail (-EINVAL) ls.p

/-- Case `STATE_ALLOW_DENY` of the token loop of `file_load`, after the
`assert(i)` has provided the in-progress record `it`. -/
def stepAllowDeny (ls : LoadState) (it : PolicyItem) : XmlToken → StepResult
  | .XML_ATTRIBUTE_NAME name =>
      if startswith name ("send_") then
        stepAllowDenyAttr ls it name .POLICY_ITEM_SEND
      else if startswith name ("receive_") then
        stepAllowDenyAttr ls it name .POLICY_ITEM_RECV
      else if name = "own" then
        stepAllowDenyAttr ls it name .POLICY_ITEM_OWN
      else if name = "own_prefix" then
        stepAllowDenyAttr ls it name .POLICY_ITEM_OWN_PFX
      else if name = "user" then
        stepAllowDenyAttr ls it name .POLICY_ITEM_USER
      else if name = "group" then
        stepAllowDenyAttr ls it name .POLICY_ITEM_GROUP
      else
        -- unknown <allow>/<deny> attribute: logged, value skipped
        .next { ls with state := .STATE_ALLOW_DENY_OTHER_ATTRIBUTE }
  | .XML_TAG_CLOSE_EMPTY =>
      if it.iclass = .POLICY_ITEM_CLASS_UNSET then .fail (-EINVAL) ls.p
      else .next (commitItem ls it)
  | .XML_TAG_CLOSE name =>
      if name = (if it.type = .POLICY_ITEM_ALLOW then "allow" else "deny") then
        if it.iclass = .POLICY_ITEM_CLASS_UNSET then .fail (-EINVAL) ls.p
        else .next (commitItem ls it)
      else .fail (-EINVAL) ls.p
  | .XML_TEXT txt =>
      if in_charset txt WHITESPACE then .next ls else .fail (-EINVAL) ls.p
  | _ => .fail (-EINVAL) ls.p

/-- Case `STATE_ALLOW_DENY_INTERFACE` of the token loop of `file_load`,
after the `assert(i)`. -/
def stepAllowDenyInterface (ls : LoadState) (it : PolicyItem) : XmlToken → StepResult
  | .XML_ATTRIBUTE_VALUE v =>
      if it.interface.isSome then .fail (-EINVAL) ls.p
      else .next { ls with i := some { it with interface := some v },
                           state := .STATE_ALLOW_DENY }
  | _ => .fail (-EINVAL) ls.p

/-- Case `STATE_ALLOW_DENY_MEMBER` of the token loop of `file_load`,
after the `assert(i)`. -/
def stepAllowDenyMember (ls : LoadState) (it : PolicyItem) : XmlToken → StepResult
  | .XML_ATTRIBUTE_VALUE v =>
      if it.member.isSome then .fail (-EINVAL) ls.p
      else .next { ls with i := some { it with member := some v },
                           state := .STATE_ALLOW_DENY }
  | _ => .fail (-EINVAL) ls.p

/-- Case `STATE_ALLOW_DENY_ERROR` of the token loop of `file_load`,
after the `assert(i)`. -/
def stepAllowDenyError (ls : LoadState) (it : PolicyItem) : XmlToken → StepResult
  | .XML_ATTRIBUTE_VALUE v =>
      if it.error.isSome then .fail (-EINVAL) ls.p
      else .next { ls with i := some { it with error := some v },
                           state := .STATE_ALLOW_DENY }
  | _ => .fail (-EINVAL) ls.p

/-- Case `STATE_ALLOW_DENY_PATH` of the token loop of `file_load`,
after the `assert(i)`. -/
def stepAllowDenyPath (ls : LoadState) (it : PolicyItem) : XmlToken → StepResult
  | .XML_ATTRIBUTE_VALUE v =>
      if it.path.isSome then .fail (-EINVAL) ls.p
      else .next { ls with i := some { it with path := some v },
                           state := .STATE_ALLOW_DENY }
  | _ => .fail (-EINVAL) ls.p

/-- Case `STATE_ALLOW_DENY_MESSAGE_TYPE` of the token loop of
`file_load`, after the `assert(i)`. -/
def stepAllowDenyMessageType (ls : LoadState) (it : PolicyItem) : XmlToken → StepResult
  | .XML_ATTRIBUTE_VALUE v =>
      if it.message_type ≠ 0 then .fail (-EINVAL) ls.p
      else
        match bus_message_type_from_string v with
        | none => .fail (-EINVAL) ls.p
        | some mt =>
            .next { ls with i := some { it with message_type := mt },
                            state := .STATE_ALLOW_DENY }
  | _ => .fail (-EINVAL) ls.p

/-- Case `STATE_ALLOW_DENY_NAME` of the token loop of `file_load`,
after the `assert(i)`. -/
def stepAllowDenyName (ls : LoadState) (it : PolicyItem) : XmlToken → StepResult
  | .XML_ATTRIBUTE_VALUE v =>
      if it.name.isSome then .fail (-EINVAL) ls.p
      else .next { ls with i := some { it with name := some v },
                           state := .STATE_ALLOW_DENY }
  | _ => .fail (-EINVAL) ls.p

/-- Case `STATE_ALLOW_DENY_OTHER_ATTRIBUTE` of the token loop of
`file_load`. -/
def stepAllowDenyOtherAttribute (ls : LoadState) : XmlToken → StepResult
  | .XML_ATTRIBUTE_VALUE _ => .next { ls with state := .STATE_ALLOW_DENY }
  | _ => .fail (-EINVAL) ls.p

/-- Case `STATE_OTHER` of the token loop of `file_load`: depth-tracked
skipping of an unrecognized element; every token other than tag-open and
the two tag-close kinds — the document-end token included — is silently
ignored. -/
def stepOther (ls : LoadState) : XmlToken → StepResult
  | .XML_TAG_OPEN _ => .next { ls with n_other := ls.n_other + 1 }
  | .XML_TAG_CLOSE _ =>
      if ls.n_other = 0 then .next { ls with state := .STATE_BUSCONFIG }
      else .next { ls with n_other := ls.n_other - 1 }
  | .XML_TAG_CLOSE_EMPTY =>
      if ls.n_other = 0 then .next { ls with state := .STATE_BUSCONFIG }
      else .next { ls with n_other := ls.n_other - 1 }
  | _ => .next ls

/-- One iteration of the token loop of `file_load`: the `switch (state)`
on one already-fetched token, dispatching to the per-state case above;
the `assert(i)` of the allow/deny states is the `Option.none → crash`
arm.  (`XML_ERROR` never reaches this switch: `runLoad` returns the
tokenizer's code first, as the C checks `t < 0` before the switch.) -/
def stepLoad (ls : LoadState) (t : XmlToken) : StepResult :=
  match ls.state with
  | .STATE_OUTSIDE => stepOutside ls t
  | .STATE_BUSCONFIG => stepBusconfig ls t
  | .STATE_POLICY => stepPolicy ls t
  | .STATE_POLICY_CONTEXT => stepPolicyContext ls t
  | .STATE_POLICY_USER => stepPolicyUser ls t
  | .STATE_POLICY_GROUP => stepPolicyGroup ls t
  | .STATE_POLICY_OTHER_ATTRIBUTE => stepPolicyOtherAttribute ls t
  | .STATE_ALLOW_DENY =>
      match ls.i with
      | none => .crash
      | some it => stepAllowDeny ls it t
  | .STATE_ALLOW_DENY_INTERFACE =>
      match ls.i with
      | none => .crash
      | some it => stepAllowDenyInterface ls it t
  | .STATE_ALLOW_DENY_MEMBER =>
      match ls.i with
      | none => .crash
      | some it => stepAllowDenyMember ls it t
  | .STATE_ALLOW_DENY_ERROR =>
      match ls.i with
      | none => .crash
      | some it => stepAllowDenyError ls it t
  | .STATE_ALLOW_DENY_PATH =>
      match ls.i with
      | none => .crash
      | some it => stepAllowDenyPath ls it t
  | .STATE_ALLOW_DENY_MESSAGE_TYPE =>
      match ls.i with
      | none => .crash
      | some it => stepAllowDenyMessageType ls it t
  | .STATE_ALLOW_DENY_NAME =>
      match ls.i with
      | none => .crash
      | some it => stepAllowDenyName ls it t
  | .STATE_ALLOW_DENY_OTHER_ATTRIBUTE => stepAllowDenyOtherAttribute ls t
  | .STATE_OTHER => stepOther ls t

/-- Outcome of a whole `file_load` token loop. -/
inductive LoadResult where
  | ok (p : Policy)
  | err (e : Int) (p : Policy)
  | crash
deriving DecidableEq, Repr

/-- Modelled from the spec: the Token Stream is a stateful cursor that
yields one token per call; once the underlying document is exhausted it
yields the document-end token on every further call. -/
def nextToken : List XmlToken → XmlToken × List XmlToken
  | [] => (.XML_END, [])
  | t :: ts => (t, ts)

/-- The `for (;;)` loop of `file_load`, with explicit fuel: `none` means
the loop has not returned within `fuel` iterations.  Each iteration
fetches one token (`xml_tokenize`), propagates tokenizer errors
(`t < 0`), and otherwise runs the state switch. -/
def runLoad : Nat → LoadState → List XmlToken → Option LoadResult
  | 0, _, _ => none
  | fuel + 1, ls, ts =>
      let (t, ts') := nextToken ts
      match t with
      | .XML_ERROR e => some (.err e ls.p)
      | _ =>
          match stepLoad ls t with
          | .next ls' => runLoad fuel ls' ts'
          | .done p => some (.ok p)
          | .fail e p => some (.err e p)
          | .crash => some .crash

/-- The initial `file_load` locals for a store `p`. -/
def initLoadState (p : Policy) : LoadState :=
  { p := p, state := .STATE_OUTSIDE, policy_category := .POLICY_CATEGORY_NONE,
    policy_user := none, policy_group := none, i := none, n_other := 0 }

/-- A configuration source: absent (read fails with `-ENOENT`, treated as
empty) or present with an already-tokenized document. -/
inductive ConfFile where
  | absent
  | present (tokens : List XmlToken)
deriving DecidableEq, Repr

/-- Embeds `file_load` for one source: a missing file returns 0 leaving
the store untouched; otherwise the token loop runs on the document. -/
def file_load (fuel : Nat) (p : Policy) (f : ConfFile) : Option LoadResult :=
  match f with
  | .absent => some (.ok p)
  | .present ts => runLoad fuel (initLoadState p) ts

/-- Outcome of `policy_load`: a return code with the store as mutated, or
a process abort inherited from a crash. -/
inductive PLResult where
  | ret (r : Int) (p : Policy)
  | crash
deriving DecidableEq, Repr

/-- The successive `file_load` calls of `policy_load`, which ignore the
return value of each call (`file_load(p, ...)` with no use of the
result): the store keeps whatever was committed, errors are dropped. -/
def loadSeq (fuel : Nat) (p : Policy) : List ConfFile → Option PLResult
  | [] => some (.ret 0 p)
  | f :: fs =>
      match file_load fuel p f with
      | none => none
      | some .crash => some .crash
      | some (.ok p') => loadSeq fuel p' fs
      | some (.err _ p') => loadSeq fuel p' fs

/-- Embeds `policy_load`: load the base file and the local override (return
values ignored), then list the drop-in directory — only that listing's
failure is returned — then load every fragment (return values ignored)
and return 0.  `dropins` is the `conf_files_list` outcome, modelled from
the spec: the sorted fragment list, or a negative code if the directory
cannot be listed. -/
def policy_load (fuel : Nat) (p : Policy) (base localOverride : ConfFile)
    (dropins : Except Int (List ConfFile)) : Option PLResult :=
  match loadSeq fuel p [base, localOverride] with
  | none => none
  | some .crash => some .crash
  | some (.ret _ p') =>
      match dropins with
      | .error e => some (.ret e p')
      | .ok files => loadSeq fuel p' files

/-- Embeds `policy_item_free`: `assert(i)` then release the record;
freeing a `NULL` record is an assertion failure (`none` = process
abort). -/
def policy_item_free (i : Option PolicyItem) : Option Unit :=
  match i with
  | none => none
  | some _ => some ()

/-- The hashmap-draining loop of `policy_free`:
`while ((first = hashmap_steal_first(h)))` pops one keyed list, the inner
`while ((i = first))` frees each record of that list, and then
`policy_item_free(i)` is called once more — at that point `i` is `NULL`. -/
def freeHashmapItems : ItemHashmap → Option Unit
  | [] => some ()       -- hashmap_steal_first returns NULL, loop ends
  | (_, items) :: rest =>
      match items with
      | [] => some ()   -- stolen value is NULL, the while condition fails
      | _ :: _ => do
          let _ ← items.forM (fun it => policy_item_free (some it))
          let _ ← policy_item_free none   -- i == NULL after the inner loop
          freeHashmapItems rest

/-- Embeds `policy_free`: drain the two lists, drain the two hashmaps,
free the hashmaps and reset them to `NULL`; `none` = assertion failure
(process abort). -/
def policyFree (p : Policy) : Option Policy := do
  let _ ← p.default_items.forM (fun it => policy_item_free (some it))
  let _ ← p.mandatory_items.forM (fun it => policy_item_free (some it))
  let _ ← freeHashmapItems (p.user_items.getD [])
  let _ ← freeHashmapItems (p.group_items.getD [])
  return { default_items := [], mandatory_items := [],
           user_items := none, group_items := none }

/-! Auxiliary definitions used by the verification: projections of the
run outcomes, the decidable store invariants, and the concrete documents
and stores the theorems evaluate the loader on. -/

/-- A freshly initialized (zeroed) `Policy`, as the callers of
`policy_load` start from. -/
def emptyPolicy : Policy := {}

/-- The store as seen in a `StepResult`: the continued, returned or
errored-out policy; `none` for an assertion failure. -/
def resPolicy : StepResult → Option Policy
  | .next ls => some ls.p
  | .done p => some p
  | .fail _ p => some p
  | .crash => none

/-- The store as seen in a `LoadResult`; `none` for an assertion
failure. -/
def loadResPolicy : LoadResult → Option Policy
  | .ok p => some p
  | .err _ p => some p
  | .crash => none

/-- Every record of the list has a class other than unset. -/
def itemsClassSet (l : List PolicyItem) : Bool :=
  l.all (fun it => it.iclass ≠ .POLICY_ITEM_CLASS_UNSET)

/-- Every record of every keyed list of the hashmap has a class other
than unset. -/
def hashmapClassSet (m : ItemHashmap) : Bool :=
  m.all (fun e => itemsClassSet e.2)

/-- Every record reachable from the four containers of the store has a
class other than unset. -/
def storeClassSet (p : Policy) : Bool :=
  itemsClassSet p.default_items && itemsClassSet p.mandatory_items &&
  hashmapClassSet (p.user_items.getD []) && hashmapClassSet (p.group_items.getD [])

/-- Token stream of
`<busconfig><policy user="alice"><deny own="org.foo.Service"/></policy></busconfig>`. -/
def c1doc : List XmlToken :=
  [ .XML_TAG_OPEN "busconfig", .XML_TAG_OPEN "policy",
    .XML_ATTRIBUTE_NAME "user", .XML_ATTRIBUTE_VALUE "alice",
    .XML_TAG_OPEN "deny", .XML_ATTRIBUTE_NAME "own",
    .XML_ATTRIBUTE_VALUE "org.foo.Service", .XML_TAG_CLOSE_EMPTY,
    .XML_TAG_CLOSE "policy", .XML_TAG_CLOSE "busconfig", .XML_END ]

/-- Token stream of
`<busconfig><policy context="default"><allow own="org.foo.Bar"/></policy></busconfig>`. -/
def c2GoodDoc : List XmlToken :=
  [ .XML_TAG_OPEN "busconfig", .XML_TAG_OPEN "policy",
    .XML_ATTRIBUTE_NAME "context", .XML_ATTRIBUTE_VALUE "default",
    .XML_TAG_OPEN "allow", .XML_ATTRIBUTE_NAME "own",
    .XML_ATTRIBUTE_VALUE "org.foo.Bar", .XML_TAG_CLOSE_EMPTY,
    .XML_TAG_CLOSE "policy", .XML_TAG_CLOSE "busconfig", .XML_END ]

/-- Token stream of a document whose root element is not `busconfig`:
an immediate grammar error. -/
def c2BadDoc : List XmlToken := [.XML_TAG_OPEN "bogus"]

/-- The record `c2GoodDoc` commits. -/
def c2Item : PolicyItem :=
  { type := .POLICY_ITEM_ALLOW, iclass := .POLICY_ITEM_OWN, name := some "org.foo.Bar" }

/-- The store after loading `c2GoodDoc` into an empty store. -/
def c2Store : Policy := { default_items := [c2Item] }

/-- Token stream of
`<busconfig><policy context="default"><allow send_foo="x"/></policy></busconfig>`:
the only attribute of the `<allow>` element is the unrecognized
`send_foo`. -/
def c3doc : List XmlToken :=
  [ .XML_TAG_OPEN "busconfig", .XML_TAG_OPEN "policy",
    .XML_ATTRIBUTE_NAME "context", .XML_ATTRIBUTE_VALUE "default",
    .XML_TAG_OPEN "allow", .XML_ATTRIBUTE_NAME "send_foo",
    .XML_ATTRIBUTE_VALUE "x", .XML_TAG_CLOSE_EMPTY,
    .XML_TAG_CLOSE "policy", .XML_TAG_CLOSE "busconfig", .XML_END ]

/-- The record that parsing `c3doc` commits: its class was flipped to
`SEND` by the unrecognized attribute `send_foo`. -/
def c3Record : PolicyItem :=
  { type := .POLICY_ITEM_ALLOW, iclass := .POLICY_ITEM_SEND }

/-- Token stream of
`<busconfig><policy user="bob"><allow send_interface="org.x"/></policy></busconfig>`. -/
def c4doc : List XmlToken :=
  [ .XML_TAG_OPEN "busconfig", .XML_TAG_OPEN "policy",
    .XML_ATTRIBUTE_NAME "user", .XML_ATTRIBUTE_VALUE "bob",
    .XML_TAG_OPEN "allow", .XML_ATTRIBUTE_NAME "send_interface",
    .XML_ATTRIBUTE_VALUE "org.x", .XML_TAG_CLOSE_EMPTY,
    .XML_TAG_CLOSE "policy", .XML_TAG_CLOSE "busconfig", .XML_END ]

/-- A rule record mid-parse whose `send_interface` has already been
assigned. -/
def c5Item : PolicyItem :=
  { type := .POLICY_ITEM_ALLOW, iclass := .POLICY_ITEM_SEND, interface := some "org.a" }

/-- A parse position inside an `<allow>` element carrying `c5Item`. -/
def c5State : LoadState :=
  { p := emptyPolicy, state := .STATE_ALLOW_DENY, i := some c5Item }

/-- A rule record mid-parse whose class is already `RECV`. -/
def c3RecvItem : PolicyItem :=
  { type := .POLICY_ITEM_DENY, iclass := .POLICY_ITEM_RECV }

/-- A parse position inside a `<deny>` element carrying `c3RecvItem`. -/
def c3RecvState : LoadState :=
  { p := emptyPolicy, state := .STATE_ALLOW_DENY, i := some c3RecvItem }

/-- Token stream of
`<busconfig><policy context="mandatory"><deny send_member="Ping"/></policy></busconfig>`. -/
def c6doc : List XmlToken :=
  [ .XML_TAG_OPEN "busconfig", .XML_TAG_OPEN "policy",
    .XML_ATTRIBUTE_NAME "context", .XML_ATTRIBUTE_VALUE "mandatory",
    .XML_TAG_OPEN "deny", .XML_ATTRIBUTE_NAME "send_member",
    .XML_ATTRIBUTE_VALUE "Ping", .XML_TAG_CLOSE_EMPTY,
    .XML_TAG_CLOSE "policy", .XML_TAG_CLOSE "busconfig", .XML_END ]

/-- The record `c6doc` commits. -/
def c6Item : PolicyItem :=
  { type := .POLICY_ITEM_DENY, iclass := .POLICY_ITEM_SEND, member := some "Ping" }

/-- The store after loading `c6doc` into an empty store. -/
def c6Store : Policy := { default_items := [c6Item] }

/-- A finalized rule record with a class set, about to be committed. -/
def c7Item : PolicyItem :=
  { type := .POLICY_ITEM_DENY, iclass := .POLICY_ITEM_OWN, name := some "org.n" }

/-- A parse position at the end of a `<deny>` element inside
`<policy context="mandatory">`. -/
def c7State : LoadState :=
  { p := emptyPolicy, state := .STATE_ALLOW_DENY,
    policy_category := .POLICY_CATEGORY_MANDATORY, i := some c7Item }

/-- Token stream of `<busconfig><foo>` — the document ends while the
parser is skipping the unrecognized element `<foo>`. -/
def c8doc : List XmlToken := [.XML_TAG_OPEN "busconfig", .XML_TAG_OPEN "foo"]

/-- A rule record sitting in a per-uid list. -/
def c9Item : PolicyItem :=
  { type := .POLICY_ITEM_DENY, iclass := .POLICY_ITEM_OWN, name := some "org.foo.Service" }

/-- A store whose `by_uid` container holds one list of one record under
uid 1000 — the shape the spec's per-user commit rule would produce. -/
def c9BadStore : Policy := { user_items := some [(1000, [c9Item])] }

/-- A rule record placed in `mandatory_items` (no code path of the
loader produces one; the container itself exists and is freed/dumped). -/
def c10Item : PolicyItem :=
  { type := .POLICY_ITEM_ALLOW, iclass := .POLICY_ITEM_GROUP, name := some "wheel" }

/-- A store with a non-empty `mandatory_items` list. -/
def c10Store : Policy := { mandatory_items := [c10Item] }

/-- Token stream of
`<busconfig><policy context="default"><allow own="org.z"/></policy></busconfig>`. -/
def c10doc : List XmlToken :=
  [ .XML_TAG_OPEN "busconfig", .XML_TAG_OPEN "policy",
    .XML_ATTRIBUTE_NAME "context", .XML_ATTRIBUTE_VALUE "default",
    .XML_TAG_OPEN "allow", .XML_ATTRIBUTE_NAME "own",
    .XML_ATTRIBUTE_VALUE "org.z", .XML_TAG_CLOSE_EMPTY,
    .XML_TAG_CLOSE "policy", .XML_TAG_CLOSE "busconfig", .XML_END ]

/-- The record `c10doc` commits. -/
def c10Item2 : PolicyItem :=
  { type := .POLICY_ITEM_ALLOW, iclass := .POLICY_ITEM_OWN, name := some "org.z" }

/-- The store after loading `c10doc` into `c10Store`. -/
def c10StoreAfter : Policy :=
  { default_items := [c10Item2], mandatory_items := [c10Item] }

/-! Helper lemmas: which stores the outcomes of one parser step can
carry.  Every per-state handler either leaves the store untouched or —
only on the successful close of an `<allow>`/`<deny>` element with a
class set — commits the in-progress record via `commitItem`. -/

theorem stepAllowDenyAttr_policy {ls : LoadState} {it : PolicyItem} {name : String}
    {ic : PolicyItemClass} {q : Policy}
    (h : resPolicy (stepAllowDenyAttr ls it name ic) = some q) : q = ls.p := by
  simp only [stepAllowDenyAttr] at h
  split_ifs at h <;> simp_all [resPolicy]

theorem stepOutside_policy {ls : LoadState} {t : XmlToken} {q : Policy}
    (h : resPolicy (stepOutside ls t) = some q) : q = ls.p := by
  cases t <;> simp only [stepOutside] at h <;>
    (try split_ifs at h) <;> simp_all [resPolicy]

theorem stepBusconfig_policy {ls : LoadState} {t : XmlToken} {q : Policy}
    (h : resPolicy (stepBusconfig ls t) = some q) : q = ls.p := by
  cases t <;> simp only [stepBusconfig] at h <;>
    (try split_ifs at h) <;> simp_all [resPolicy]

theorem stepPolicy_policy {ls : LoadState} {t : XmlToken} {q : Policy}
    (h : resPolicy (stepPolicy ls t) = some q) : q = ls.p := by
  cases t <;> simp only [stepPolicy] at h <;>
    (try split_ifs at h) <;> simp_all [resPolicy]

theorem stepPolicyContext_policy {ls : LoadState} {t : XmlToken} {q : Policy}
    (h : resPolicy (stepPolicyContext ls t) = some q) : q = ls.p := by
  cases t <;> simp only [stepPolicyContext] at h <;>
    (try split_ifs at h) <;> simp_all [resPolicy]

theorem stepPolicyUser_policy {ls : LoadState} {t : XmlToken} {q : Policy}
    (h : resPolicy (stepPolicyUser ls t) = some q) : q = ls.p := by
  cases t <;> simp only [stepPolicyUser] at h <;> simp_all [resPolicy]

theorem stepPolicyGroup_policy {ls : LoadState} {t : XmlToken} {q : Policy}
    (h : resPolicy (stepPolicyGroup ls t) = some q) : q = ls.p := by
  cases t <;> simp only [stepPolicyGroup] at h <;> simp_all [resPolicy]

theorem stepPolicyOtherAttribute_policy {ls : LoadState} {t : XmlToken} {q : Policy}
    (h : resPolicy (stepPolicyOtherAttribute ls t) = some q) : q = ls.p := by
  cases t <;> simp only [stepPolicyOtherAttribute] at h <;> simp_all [resPolicy]

theorem stepAllowDenyInterface_policy {ls : LoadState} {it : PolicyItem} {t : XmlToken}
    {q : Policy} (h : resPolicy (stepAllowDenyInterface ls it t) = some q) : q = ls.p := by
  cases t <;> simp only [stepAllowDenyInterface] at h <;>
    (try split_ifs at h) <;> simp_all [resPolicy]

theorem stepAllowDenyMember_policy {ls : LoadState} {it : PolicyItem} {t : XmlToken}
    {q : Policy} (h : resPolicy (stepAllowDenyMember ls it t) = some q) : q = ls.p := by
  cases t <;> simp only [stepAllowDenyMember] at h <;>
    (try split_ifs at h) <;> simp_all [resPolicy]

theorem stepAllowDenyError_policy {ls : LoadState} {it : PolicyItem} {t : XmlToken}
    {q : Policy} (h : resPolicy (stepAllowDenyError ls it t) = some q) : q = ls.p := by
  cases t <;> simp only [stepAllowDenyError] at h <;>
    (try split_ifs at h) <;> simp_all [resPolicy]

theorem stepAllowDenyPath_policy {ls : LoadState} {it : PolicyItem} {t : XmlToken}
    {q : Policy} (h : resPolicy (stepAllowDenyPath ls it t) = some q) : q = ls.p := by
  cases t <;> simp only [stepAllowDenyPath] at h <;>
    (try split_ifs at h) <;> simp_all [resPolicy]

theorem stepAllowDenyMessageType_policy {ls : LoadState} {it : PolicyItem} {t : XmlToken}
    {q : Policy} (h : resPolicy (stepAllowDenyMessageType ls it t) = some q) : q = ls.p := by
  cases t <;> simp only [stepAllowDenyMessageType] at h <;>
    (try split_ifs at h) <;> (try split at h) <;> simp_all [resPolicy]

theorem stepAllowDenyName_policy {ls : LoadState} {it : PolicyItem} {t : XmlToken}
    {q : Policy} (h : resPolicy (stepAllowDenyName ls it t) = some q) : q = ls.p := by
  cases t <;> simp only [stepAllowDenyName] at h <;>
    (try split_ifs at h) <;> simp_all [resPolicy]

theorem stepAllowDenyOtherAttribute_policy {ls : LoadState} {t : XmlToken} {q : Policy}
    (h : resPolicy (stepAllowDenyOtherAttribute ls t) = some q) : q = ls.p := by
  cases t <;> simp only [stepAllowDenyOtherAttribute] at h <;> simp_all [resPolicy]

theorem stepOther_policy {ls : LoadState} {t : XmlToken} {q : Policy}
    (h : resPolicy (stepOther ls t) = some q) : q = ls.p := by
  cases t <;> simp only [stepOther] at h <;>
    (try split_ifs at h) <;> simp_all [resPolicy]

theorem stepAllowDeny_policy {ls : LoadState} {it : PolicyItem} {t : XmlToken} {q : Policy}
    (h : resPolicy (stepAllowDeny ls it t) = some q) :
    q = ls.p ∨ (it.iclass ≠ .POLICY_ITEM_CLASS_UNSET ∧ q = (commitItem ls it).p) := by
  cases t <;> simp only [stepAllowDeny] at h
  case XML_END => simp_all [resPolicy]
  case XML_TAG_OPEN name => simp_all [resPolicy]
  case XML_ATTRIBUTE_NAME name =>
      split_ifs at h <;>
        first
          | exact Or.inl (stepAllowDenyAttr_policy h)
          | (simp only [resPolicy, Option.some.injEq] at h; exact Or.inl h.symm)
  case XML_ATTRIBUTE_VALUE v => simp_all [resPolicy]
  case XML_TEXT txt =>
      split_ifs at h <;> simp_all [resPolicy]
  case XML_ERROR e => simp_all [resPolicy]
  case XML_TAG_CLOSE_EMPTY =>
      split_ifs at h <;> simp_all [resPolicy]
  case XML_TAG_CLOSE name =>
      split_ifs at h <;> simp_all [resPolicy]

/-- Master shape lemma: one parser step either keeps the store or
commits the in-progress record (whose class is then necessarily set). -/
theorem stepLoad_policy_effect (ls : LoadState) (t : XmlToken) (q : Policy)
    (h : resPolicy (stepLoad ls t) = some q) :
    q = ls.p ∨ ∃ it, ls.i = some it ∧ it.iclass ≠ .POLICY_ITEM_CLASS_UNSET ∧
      q = (commitItem ls it).p := by
  unfold stepLoad at h
  split at h
  · exact Or.inl (stepOutside_policy h)
  · exact Or.inl (stepBusconfig_policy h)
  · exact Or.inl (stepPolicy_policy h)
  · exact Or.inl (stepPolicyContext_policy h)
  · exact Or.inl (stepPolicyUser_policy h)
  · exact Or.inl (stepPolicyGroup_policy h)
  · exact Or.inl (stepPolicyOtherAttribute_policy h)
  · split at h
    · cases h
    · rename_i hi
      rcases stepAllowDeny_policy h with hq | ⟨hcls, hq⟩
      · exact Or.inl hq
      · exact Or.inr ⟨_, hi, hcls, hq⟩
  · split at h
    · cases h
    · exact Or.inl (stepAllowDenyInterface_policy h)
  · split at h
    · cases h
    · exact Or.inl (stepAllowDenyMember_policy h)
  · split at h
    · cases h
    · exact Or.inl (stepAllowDenyError_policy h)
  · split at h
    · cases h
    · exact Or.inl (stepAllowDenyPath_policy h)
  · split at h
    · cases h
    · exact Or.inl (stepAllowDenyMessageType_policy h)
  · split at h
    · cases h
    · exact Or.inl (stepAllowDenyName_policy h)
  · exact Or.inl (stepAllowDenyOtherAttribute_policy h)
  · exact Or.inl (stepOther_policy h)

theorem commitItem_p_mandatory (ls : LoadState) (it : PolicyItem) :
    (commitItem ls it).p.mandatory_items = ls.p.mandatory_items := by
  unfold commitItem
  split <;> rfl

theorem itemsClassSet_cons {it : PolicyItem} {l : List PolicyItem}
    (h1 : it.iclass ≠ .POLICY_ITEM_CLASS_UNSET) (h2 : itemsClassSet l = true) :
    itemsClassSet (it :: l) = true := by
  simp only [itemsClassSet, List.all_cons, Bool.and_eq_true, decide_eq_true_eq] at *
  exact ⟨h1, h2⟩

theorem hashmap_get_getD_classSet {m : ItemHashmap} {k : Nat}
    (hm : hashmapClassSet m = true) :
    itemsClassSet ((hashmap_get m k).getD []) = true := by
  unfold hashmap_get
  cases hf : m.find? (fun e => e.1 = k) with
  | none => rfl
  | some e =>
      have hmem : e ∈ m := List.mem_of_find?_eq_some hf
      unfold hashmapClassSet at hm
      rw [List.all_eq_true] at hm
      exact hm e hmem

theorem hashmap_replace_classSet {m : ItemHashmap} {k : Nat} {v : List PolicyItem}
    (hm : hashmapClassSet m = true) (hv : itemsClassSet v = true) :
    hashmapClassSet (hashmap_replace m k v) = true := by
  unfold hashmapClassSet at hm ⊢
  rw [List.all_eq_true] at hm
  unfold hashmap_replace
  split
  · rw [List.all_eq_true]
    intro e he
    rw [List.mem_map] at he
    obtain ⟨e0, he0, rfl⟩ := he
    by_cases hek : e0.1 = k
    · simp only [hek, if_true, if_pos]
      exact hv
    · simp only [if_neg hek]
      exact hm e0 he0
  · rw [List.all_eq_true]
    intro e he
    rcases List.mem_cons.mp he with rfl | he
    · exact hv
    · exact hm e he

theorem commitItem_classSet (ls : LoadState) (it : PolicyItem)
    (hp : storeClassSet ls.p = true)
    (hit : it.iclass ≠ .POLICY_ITEM_CLASS_UNSET) :
    storeClassSet (commitItem ls it).p = true := by
  simp only [storeClassSet, Bool.and_eq_true] at hp
  obtain ⟨⟨⟨hd, hman⟩, hu⟩, hg⟩ := hp
  unfold commitItem
  split <;> simp only [storeClassSet, Bool.and_eq_true]
  · exact ⟨⟨⟨itemsClassSet_cons hit hd, hman⟩, hu⟩, hg⟩
  · exact ⟨⟨⟨itemsClassSet_cons hit hd, hman⟩, hu⟩, hg⟩
  · exact ⟨⟨⟨hd, hman⟩,
      hashmap_replace_classSet hu (itemsClassSet_cons hit (hashmap_get_getD_classSet hu))⟩, hg⟩
  · exact ⟨⟨⟨hd, hman⟩, hu⟩,
      hashmap_replace_classSet hg (itemsClassSet_cons hit (hashmap_get_getD_classSet hg))⟩
  · exact ⟨⟨⟨hd, hman⟩, hu⟩, hg⟩

theorem stepLoad_mandatory (ls : LoadState) (t : XmlToken) (q : Policy)
    (h : resPolicy (stepLoad ls t) = some q) :
    q.mandatory_items = ls.p.mandatory_items := by
  rcases stepLoad_policy_effect ls t q h with rfl | ⟨it, -, -, rfl⟩
  · rfl
  · exact commitItem_p_mandatory ls it

theorem stepLoad_classSet (ls : LoadState) (t : XmlToken) (q : Policy)
    (h : resPolicy (stepLoad ls t) = some q) (hp : storeClassSet ls.p = true) :
    storeClassSet q = true := by
  rcases stepLoad_policy_effect ls t q h with rfl | ⟨it, -, hcls, rfl⟩
  · exact hp
  · exact commitItem_classSet ls it hp hcls

/-- Preservation of a store predicate along the whole token loop. -/
theorem runLoad_policy_pres (P : Policy → Prop)
    (hstep : ∀ ls t q, resPolicy (stepLoad ls t) = some q → P ls.p → P q)
    (fuel : Nat) (ls : LoadState) (ts : List XmlToken) (r : LoadResult) (q : Policy)
    (h : runLoad fuel ls ts = some r) (hq : loadResPolicy r = some q)
    (h0 : P ls.p) : P q := by
  induction fuel generalizing ls ts r with
  | zero => cases h
  | succ n ih =>
      simp only [runLoad] at h
      rcases hnt : nextToken ts with ⟨t, ts'⟩
      rw [hnt] at h
      split at h
      · -- the XML_ERROR arm returns the tokenizer's code with the store
        simp only [Option.some.injEq] at h; subst h
        simp only [loadResPolicy, Option.some.injEq] at hq; subst hq
        exact h0
      · -- every real token goes through the state switch
        cases hst : stepLoad ls t with
        | next ls2 =>
            rw [hst] at h
            exact ih ls2 ts' r h hq (hstep ls t ls2.p (by rw [hst]; rfl) h0)
        | done p2 =>
            rw [hst] at h
            simp only [Option.some.injEq] at h; subst h
            simp only [loadResPolicy, Option.some.injEq] at hq; subst hq
            exact hstep ls t p2 (by rw [hst]; rfl) h0
        | fail e2 p2 =>
            rw [hst] at h
            simp only [Option.some.injEq] at h; subst h
            simp only [loadResPolicy, Option.some.injEq] at hq; subst hq
            exact hstep ls t p2 (by rw [hst]; rfl) h0
        | crash =>
            rw [hst] at h
            simp only [Option.some.injEq] at h; subst h
            cases hq

theorem runLoad_mandatory (fuel : Nat) (ls : LoadState) (ts : List XmlToken)
    (r : LoadResult) (q : Policy)
    (h : runLoad fuel ls ts = some r) (hq : loadResPolicy r = some q) :
    q.mandatory_items = ls.p.mandatory_items :=
  runLoad_policy_pres (fun x => x.mandatory_items = ls.p.mandatory_items)
    (fun ls' t q' hs hp => (stepLoad_mandatory ls' t q' hs).trans hp)
    fuel ls ts r q h hq rfl

theorem runLoad_classSet (fuel : Nat) (ls : LoadState) (ts : List XmlToken)
    (r : LoadResult) (q : Policy)
    (h : runLoad fuel ls ts = some r) (hq : loadResPolicy r = some q)
    (h0 : storeClassSet ls.p = true) : storeClassSet q = true :=
  runLoad_policy_pres (fun x => storeClassSet x = true)
    (fun ls' t q' hs hp => stepLoad_classSet ls' t q' hs hp)
    fuel ls ts r q h hq h0

theorem file_load_mandatory (fuel : Nat) (p : Policy) (f : ConfFile)
    (r : LoadResult) (q : Policy)
    (h : file_load fuel p f = some r) (hq : loadResPolicy r = some q) :
    q.mandatory_items = p.mandatory_items := by
  cases f with
  | absent =>
      simp only [file_load, Option.some.injEq] at h; subst h
      simp only [loadResPolicy, Option.some.injEq] at hq; subst hq; rfl
  | present ts => exact runLoad_mandatory fuel (initLoadState p) ts r q h hq

theorem loadSeq_ret_zero (fuel : Nat) (fs : List ConfFile) (p p' : Policy) (r : Int)
    (h : loadSeq fuel p fs = some (.ret r p')) : r = 0 := by
  induction fs generalizing p with
  | nil =>
      simp only [loadSeq, Option.some.injEq, PLResult.ret.injEq] at h
      exact h.1.symm
  | cons f fs ih =>
      simp only [loadSeq] at h
      cases hf : file_load fuel p f with
      | none => rw [hf] at h; cases h
      | some res =>
          rw [hf] at h
          cases res with
          | crash => simp at h
          | ok p1 => exact ih p1 h
          | err e p1 => exact ih p1 h

theorem loadSeq_mandatory (fuel : Nat) (fs : List ConfFile) (p p' : Policy) (r : Int)
    (h : loadSeq fuel p fs = some (.ret r p')) :
    p'.mandatory_items = p.mandatory_items := by
  induction fs generalizing p with
  | nil =>
      simp only [loadSeq, Option.some.injEq, PLResult.ret.injEq] at h
      rw [h.2]
  | cons f fs ih =>
      simp only [loadSeq] at h
      cases hf : file_load fuel p f with
      | none => rw [hf] at h; cases h
      | some res =>
          rw [hf] at h
          cases res with
          | crash => simp at h
          | ok p1 =>
              exact (ih p1 h).trans (file_load_mandatory fuel p f (.ok p1) p1 hf rfl)
          | err e p1 =>
              exact (ih p1 h).trans (file_load_mandatory fuel p f (.err e p1) p1 hf rfl)

/-- C1: parsing the document
`<busconfig><policy user="alice"><deny own="org.foo.Service"/></policy></busconfig>`
succeeds but commits nothing: the resulting store is the empty store —
in particular `by_uid` (`user_items`) is still the `NULL` hashmap — because
`file_load` never sets `policy_category` to `POLICY_CATEGORY_USER` (and
never resolves "alice" to a uid), so the close of the `<deny>` element
attaches the record to no container.  The record claimed to be reachable
from `by_uid` does not exist anywhere in the store. -/
theorem c1_user_policy_commits_nothing :
    runLoad 20 (initLoadState emptyPolicy) c1doc = some (.ok emptyPolicy) ∧
    emptyPolicy.user_items = none ∧ emptyPolicy.default_items = [] := by
  decide

/-- C4: parsing the document
`<busconfig><policy user="bob"><allow send_interface="org.x"/></policy></busconfig>`
succeeds — the `<allow>` element closes successfully with class `SEND` —
yet the resulting store is empty: the finalized record is attached to
none of the four containers (orphaned), violating the claimed
reachable-from-exactly-one-container invariant. -/
theorem c4_closed_record_reaches_no_container :
    runLoad 20 (initLoadState emptyPolicy) c4doc = some (.ok emptyPolicy) ∧
    emptyPolicy.default_items = [] ∧ emptyPolicy.mandatory_items = [] ∧
    emptyPolicy.user_items = none ∧ emptyPolicy.group_items = none := by
  decide

/-- C8 helper: once the parser is in `STATE_OTHER` and the document is
exhausted, the loop never returns: `STATE_OTHER` ignores `XML_END`, the
tokenizer keeps yielding `XML_END`, and the state never changes. -/
theorem runLoad_other_exhausted_never_returns (n : Nat) (ls : LoadState)
    (h : ls.state = .STATE_OTHER) : runLoad n ls [] = none := by
  induction n generalizing ls with
  | zero => rfl
  | succ n ih =>
      have hstep : stepLoad ls .XML_END = .next ls := by
        simp [stepLoad, stepOther, h]
      simp only [runLoad, nextToken, hstep]
      exact ih ls h

/-- C8: the claim that a document load terminates on every finite token
stream fails: on the token stream of `<busconfig><foo>` — which ends
while the parser is inside the skipped unrecognized element `<foo>` —
`file_load` never returns, whatever the iteration bound: `STATE_OTHER`
has no case for the document-end token, so the loop spins on the
repeated `XML_END` forever. -/
theorem c8_load_hangs_when_doc_ends_in_skipped_element (fuel : Nat) :
    runLoad fuel (initLoadState emptyPolicy) c8doc = none := by
  match fuel with
  | 0 => rfl
  | 1 => rfl
  | n + 2 =>
      exact runLoad_other_exhausted_never_returns n
        { p := emptyPolicy, state := .STATE_OTHER,
          policy_category := .POLICY_CATEGORY_NONE,
          policy_user := none, policy_group := none, i := none, n_other := 0 }
        rfl

/-- C9: `policy_free` on a store whose `by_uid` hashmap holds a
non-empty per-uid list aborts: after draining the list the source calls
`policy_item_free(i)` once more with `i == NULL`, violating
`policy_item_free`'s `assert(i)` (`none` = abort).  On stores with empty
keyed containers — the only kind this loader ever builds — freeing works
and a second free of the emptied store is safe and yields the same empty
store. -/
theorem c9_free_aborts_on_populated_uid_map :
    policyFree c9BadStore = none ∧
    policyFree emptyPolicy = some emptyPolicy ∧
    (policyFree emptyPolicy).bind policyFree = some emptyPolicy := by
  decide

/-- C3 counterexample: on
`<busconfig><policy context="default"><allow send_foo="x"/></policy></busconfig>`
the only attribute of the `<allow>` element, `send_foo`, is outside the
recognized vocabulary, so by the claim the in-progress record (class
included) should be left unchanged — the element would then close with
class unset and the load would fail.  Instead the load succeeds and
commits a record whose class is `SEND`: `file_load` assigns
`i->class = POLICY_ITEM_SEND` before examining the unknown suffix
`foo`. -/
theorem c3_ignored_attribute_mutates_class_counterexample :
    runLoad 20 (initLoadState emptyPolicy) c3doc =
      some (.ok { default_items := [c3Record] }) ∧
    c3Record.iclass = .POLICY_ITEM_SEND := by
  decide

/-- C2 (amended): `policy_load` ignores the result of every `file_load`
call, so grammar and token-stream errors in any of the documents are
logged but never returned: whenever the full ordered load returns at
all, the returned status is the drop-in directory listing's error if
that listing failed, and 0 (success) otherwise — never a parse error.
(Rules committed from previously fully-parsed documents do remain in the
store, as the loader threads the mutated store through every call.) -/
theorem c2_load_reports_success_despite_errors (fuel : Nat) (p : Policy)
    (base localOverride : ConfFile) (dropins : Except Int (List ConfFile))
    (r : Int) (p' : Policy)
    (h : policy_load fuel p base localOverride dropins = some (.ret r p')) :
    (∃ e, dropins = .error e ∧ r = e) ∨ r = 0 := by
  unfold policy_load at h
  cases h2 : loadSeq fuel p [base, localOverride] with
  | none => rw [h2] at h; cases h
  | some res =>
      rw [h2] at h
      cases res with
      | crash => simp at h
      | ret r2 p2 =>
          cases dropins with
          | error e =>
              simp only [Option.some.injEq, PLResult.ret.injEq] at h
              exact Or.inl ⟨e, rfl, h.1.symm⟩
          | ok files => exact Or.inr (loadSeq_ret_zero fuel files p2 p' r h)

/-- C2 witness: the amended statement at the concrete two-document load
of the counterexample. -/
theorem c2_load_reports_success_despite_errors_witness :
    policy_load 20 emptyPolicy (.present c2GoodDoc) (.present c2BadDoc)
      (.ok []) = some (.ret 0 c2Store) ∧
    ((∃ e, (Except.ok ([] : List ConfFile) : Except Int (List ConfFile)) =
        .error e ∧ (0 : Int) = e) ∨ (0 : Int) = 0) :=
  ⟨by decide,
   c2_load_reports_success_despite_errors 20 emptyPolicy (.present c2GoodDoc)
     (.present c2BadDoc) (.ok []) 0 c2Store (by decide)⟩

/-- C2 counterexample: loading the base file `c2GoodDoc` (commits one
rule) and then the override file `c2BadDoc` (immediate grammar error
`-EINVAL`, first conjunct) makes `policy_load` return 0 — success — not
the error: `policy_load` discards the result of every `file_load` call.
The rule committed by the first document does remain in the store. -/
theorem c2_error_swallowed_counterexample :
    runLoad 20 (initLoadState c2Store) c2BadDoc = some (.err (-EINVAL) c2Store) ∧
    policy_load 20 emptyPolicy (.present c2GoodDoc) (.present c2BadDoc)
      (.ok []) = some (.ret 0 c2Store) := by
  decide

/-- Helper for C3: no attribute name starts with both `send_` and
`receive_` — the two recognized class-selecting shapes are mutually
exclusive, so the `receive_` branch of the dispatch is reached exactly
when the name starts with `receive_`. -/
theorem startswith_send_receive_mutually_exclusive (s : String)
    (h1 : startswith s ("send_") = true)
    (h2 : startswith s ("receive_") = true) : False := by
  unfold startswith at h1 h2
  have e1 : ("send_").toList = ['s', 'e', 'n', 'd', '_'] := rfl
  have e2 : ("receive_").toList = ['r', 'e', 'c', 'e', 'i', 'v', 'e', '_'] := rfl
  rw [e1] at h1
  rw [e2] at h2
  cases hs : s.toList with
  | nil => rw [hs] at h1; simp [List.isPrefixOf] at h1
  | cons c cs =>
      rw [hs] at h1 h2
      simp only [List.isPrefixOf, Bool.and_eq_true, beq_iff_eq] at h1 h2
      rw [← h1.1] at h2
      exact absurd h2.1 (by decide)

/-- C3 (amended): in `STATE_ALLOW_DENY`, an attribute name that matches
none of the recognized shapes — does not start with `send_` or
`receive_` and is none of `own`, `own_prefix`, `user`, `group` — is
accepted and ignored: the parser moves to
`STATE_ALLOW_DENY_OTHER_ATTRIBUTE` with the record untouched, and the
following value token is discarded, returning to `STATE_ALLOW_DENY`.
But an attribute that starts with `send_` (second conjunct) or
`receive_` (third conjunct) whose suffix is unrecognized is ignored only
after the record's class has already been overwritten with `SEND`
(respectively `RECV`): the value is still skipped and parsing still
continues, while the in-progress record is changed. -/
theorem c3_unknown_attribute_value_skipped (ls : LoadState) (it : PolicyItem)
    (name v : String) (hst : ls.state = .STATE_ALLOW_DENY) (hi : ls.i = some it) :
    (startswith name ("send_") = false → startswith name ("receive_") = false →
     name ≠ "own" → name ≠ "own_prefix" → name ≠ "user" → name ≠ "group" →
     stepLoad ls (.XML_ATTRIBUTE_NAME name) =
       .next { ls with state := .STATE_ALLOW_DENY_OTHER_ATTRIBUTE }) ∧
    (startswith name ("send_") = true →
     (it.iclass = .POLICY_ITEM_CLASS_UNSET ∨ it.iclass = .POLICY_ITEM_SEND) →
     afterFirstUnderscore name ∉
       (["interface", "member", "error", "path", "type", "destination"] : List String) →
     stepLoad ls (.XML_ATTRIBUTE_NAME name) =
       .next { ls with i := some { it with iclass := .POLICY_ITEM_SEND },
                       state := .STATE_ALLOW_DENY_OTHER_ATTRIBUTE }) ∧
    (startswith name ("receive_") = true →
     (it.iclass = .POLICY_ITEM_CLASS_UNSET ∨ it.iclass = .POLICY_ITEM_RECV) →
     afterFirstUnderscore name ∉
       (["interface", "member", "error", "path", "type", "sender"] : List String) →
     stepLoad ls (.XML_ATTRIBUTE_NAME name) =
       .next { ls with i := some { it with iclass := .POLICY_ITEM_RECV },
                       state := .STATE_ALLOW_DENY_OTHER_ATTRIBUTE }) ∧
    stepLoad { ls with state := .STATE_ALLOW_DENY_OTHER_ATTRIBUTE }
      (.XML_ATTRIBUTE_VALUE v) = .next { ls with state := .STATE_ALLOW_DENY } := by
  obtain ⟨p0, st, cat, pu, pg, ii, no⟩ := ls
  obtain ⟨ty, icl, intf, mem, er, nm, pth, mt, uidf, gidf, uv, gv⟩ := it
  have h1 : st = .STATE_ALLOW_DENY := hst
  subst h1
  have h2 : ii = some ⟨ty, icl, intf, mem, er, nm, pth, mt, uidf, gidf, uv, gv⟩ := hi
  subst h2
  refine ⟨?_, ?_, ?_, rfl⟩
  · intro hs hr ho hop hu hg
    simp [stepLoad, stepAllowDeny, hs, hr, ho, hop, hu, hg]
  · intro hs hcl hnot
    simp only [List.mem_cons, List.not_mem_nil, or_false] at hnot
    push_neg at hnot
    obtain ⟨n1, n2, n3, n4, n5, n6⟩ := hnot
    have hcl' : icl = .POLICY_ITEM_CLASS_UNSET ∨ icl = .POLICY_ITEM_SEND := hcl
    rcases hcl' with rfl | rfl <;>
      simp [stepLoad, stepAllowDeny, stepAllowDenyAttr, hs, n1, n2, n3, n4, n5, n6]
  · intro hr hcl hnot
    have hs : startswith name ("send_") = false := by
      cases hcase : startswith name ("send_") with
      | false => rfl
      | true => exact absurd (startswith_send_receive_mutually_exclusive name hcase hr) id
    simp only [List.mem_cons, List.not_mem_nil, or_false] at hnot
    push_neg at hnot
    obtain ⟨n1, n2, n3, n4, n5, n6⟩ := hnot
    have hcl' : icl = .POLICY_ITEM_CLASS_UNSET ∨ icl = .POLICY_ITEM_RECV := hcl
    rcases hcl' with rfl | rfl <;>
      simp [stepLoad, stepAllowDeny, stepAllowDenyAttr, hs, hr, n1, n2, n3, n4, n5, n6]

/-- C3 witness: the amended statement at concrete parse positions (an
`<allow>` element whose class is already `SEND`, a `<deny>` element
whose class is already `RECV`), for the plainly unknown attribute
`attrfoo` and the unknown-suffixed attributes `send_foo` and
`receive_foo`. -/
theorem c3_unknown_attribute_value_skipped_witness :
    (c5State.state = .STATE_ALLOW_DENY ∧ c5State.i = some c5Item ∧
     c3RecvState.state = .STATE_ALLOW_DENY ∧ c3RecvState.i = some c3RecvItem) ∧
    (stepLoad c5State (.XML_ATTRIBUTE_NAME "attrfoo") =
       .next { c5State with state := .STATE_ALLOW_DENY_OTHER_ATTRIBUTE } ∧
     stepLoad c5State (.XML_ATTRIBUTE_NAME "send_foo") =
       .next { c5State with i := some { c5Item with iclass := .POLICY_ITEM_SEND },
                            state := .STATE_ALLOW_DENY_OTHER_ATTRIBUTE } ∧
     stepLoad c3RecvState (.XML_ATTRIBUTE_NAME "receive_foo") =
       .next { c3RecvState with i := some { c3RecvItem with iclass := .POLICY_ITEM_RECV },
                                state := .STATE_ALLOW_DENY_OTHER_ATTRIBUTE } ∧
     stepLoad { c5State with state := .STATE_ALLOW_DENY_OTHER_ATTRIBUTE }
       (.XML_ATTRIBUTE_VALUE "zzz") = .next { c5State with state := .STATE_ALLOW_DENY }) :=
  ⟨⟨rfl, rfl, rfl, rfl⟩, by
    have ha := c3_unknown_attribute_value_skipped c5State c5Item "attrfoo" "zzz" rfl rfl
    have hb := c3_unknown_attribute_value_skipped c5State c5Item "send_foo" "zzz" rfl rfl
    have hc := c3_unknown_attribute_value_skipped c3RecvState c3RecvItem "receive_foo"
      "zzz" rfl rfl
    exact ⟨ha.1 (by decide) (by decide) (by decide) (by decide) (by decide) (by decide),
           hb.2.1 (by decide) (Or.inr rfl) (by decide),
           hc.2.2.1 (by decide) (Or.inr rfl) (by decide), ha.2.2.2⟩⟩

/-- C5: duplicate assignment of an optional field and switching the
class on one element are grammar errors that abort the load at once.  In
any parse position inside an `<allow>`/`<deny>` element whose record
already has class `SEND`: if `interface` is already set, a further
`send_interface="..."` attribute makes the whole token loop return
`-EINVAL` (first conjunct, two steps: attribute name then value); and a
`receive_member` attribute — switching class — makes it return `-EINVAL`
immediately (second conjunct). -/
theorem c5_duplicate_field_or_class_switch_aborts (ls : LoadState) (it : PolicyItem)
    (s v : String) (fuel : Nat) (ts : List XmlToken)
    (hst : ls.state = .STATE_ALLOW_DENY) (hi : ls.i = some it)
    (hclass : it.iclass = .POLICY_ITEM_SEND) :
    (it.interface = some s →
      runLoad (fuel + 2) ls
        (.XML_ATTRIBUTE_NAME "send_interface" :: .XML_ATTRIBUTE_VALUE v :: ts) =
        some (.err (-EINVAL) ls.p)) ∧
    runLoad (fuel + 1) ls (.XML_ATTRIBUTE_NAME "receive_member" :: ts) =
      some (.err (-EINVAL) ls.p) := by
  obtain ⟨p0, st, cat, pu, pg, ii, no⟩ := ls
  obtain ⟨ty, icl, intf, mem, er, nm, pth, mt, uidf, gidf, uv, gv⟩ := it
  have h1 : st = .STATE_ALLOW_DENY := hst
  subst h1
  have h2 : ii = some ⟨ty, icl, intf, mem, er, nm, pth, mt, uidf, gidf, uv, gv⟩ := hi
  subst h2
  have h3 : icl = .POLICY_ITEM_SEND := hclass
  subst h3
  constructor
  · intro hintf
    have h4 : intf = some s := hintf
    subst h4
    rfl
  · rfl

/-- C5 witness: the two grammar errors at a concrete parse position. -/
theorem c5_duplicate_field_or_class_switch_aborts_witness :
    (c5State.state = .STATE_ALLOW_DENY ∧ c5State.i = some c5Item ∧
     c5Item.iclass = .POLICY_ITEM_SEND ∧ c5Item.interface = some "org.a") ∧
    runLoad 2 c5State
      [.XML_ATTRIBUTE_NAME "send_interface", .XML_ATTRIBUTE_VALUE "x"] =
      some (.err (-EINVAL) c5State.p) ∧
    runLoad 1 c5State [.XML_ATTRIBUTE_NAME "receive_member"] =
      some (.err (-EINVAL) c5State.p) :=
  ⟨⟨rfl, rfl, rfl, rfl⟩, by
    have h := c5_duplicate_field_or_class_switch_aborts c5State c5Item "org.a" "x" 0 []
      rfl rfl rfl
    exact ⟨h.1 rfl, h.2⟩⟩

/-- C6: an `<allow>`/`<deny>` element that closes — by self-close or by
the matching close tag — with its class still unset is a grammar error
(`-EINVAL`), and consequently no record with class unset is ever
committed: any parse outcome carrying a store (success, or an error
after which the rules committed so far persist) reached from a store in
which every reachable record has a set class (in particular the empty
store) again has every reachable record's class set. -/
theorem c6_no_unset_class_reaches_store (fuel : Nat) (ts : List XmlToken)
    (p₀ : Policy) (r : LoadResult) (p' : Policy)
    (h0 : storeClassSet p₀ = true)
    (h : runLoad fuel (initLoadState p₀) ts = some r)
    (hq : loadResPolicy r = some p') :
    storeClassSet p' = true ∧
    ∀ (ls : LoadState) (it : PolicyItem) (t : XmlToken),
      ls.state = .STATE_ALLOW_DENY → ls.i = some it →
      it.iclass = .POLICY_ITEM_CLASS_UNSET →
      (t = .XML_TAG_CLOSE_EMPTY ∨
       t = .XML_TAG_CLOSE
            (if it.type = .POLICY_ITEM_ALLOW then "allow" else "deny")) →
      stepLoad ls t = .fail (-EINVAL) ls.p := by
  constructor
  · exact runLoad_classSet fuel (initLoadState p₀) ts r p' h hq h0
  · intro ls it t hst hi hcls ht
    obtain ⟨p0, st, cat, pu, pg, ii, no⟩ := ls
    obtain ⟨ty, icl, intf, mem, er, nm, pth, mt, uidf, gidf, uv, gv⟩ := it
    have h1 : st = .STATE_ALLOW_DENY := hst
    subst h1
    have h2 : ii = some ⟨ty, icl, intf, mem, er, nm, pth, mt, uidf, gidf, uv, gv⟩ := hi
    subst h2
    have h3 : icl = .POLICY_ITEM_CLASS_UNSET := hcls
    subst h3
    rcases ht with rfl | rfl <;> cases ty <;> rfl

/-- C6 witness: the statement at the concrete document `c6doc`, both for
the successful outcome and for an errored outcome (the same document
followed by a stray close tag: the committed rule persists in the store
the error carries). -/
theorem c6_no_unset_class_reaches_store_witness :
    (storeClassSet emptyPolicy = true ∧
     runLoad 20 (initLoadState emptyPolicy) c6doc = some (.ok c6Store) ∧
     loadResPolicy (.ok c6Store) = some c6Store ∧
     runLoad 20 (initLoadState emptyPolicy)
       (c6doc.take 8 ++ [.XML_TAG_CLOSE "busconfig"]) =
       some (.err (-EINVAL) c6Store) ∧
     loadResPolicy (.err (-EINVAL) c6Store) = some c6Store) ∧
    storeClassSet c6Store = true :=
  ⟨⟨by decide, by decide, rfl, by decide, rfl⟩,
   (c6_no_unset_class_reaches_store 20
     (c6doc.take 8 ++ [.XML_TAG_CLOSE "busconfig"]) emptyPolicy
     (.err (-EINVAL) c6Store) c6Store (by decide) (by decide) rfl).1⟩

/-- C7: when an `<allow>`/`<deny>` element closes (self-close or a
matching close tag) with a class set, inside a `<policy>` whose scope
category is default or mandatory, the record is prepended — inserted at
the front, newest first — onto `default_items`; both categories target
the same default list. -/
theorem c7_default_and_mandatory_prepend_to_default_rules
    (ls : LoadState) (it : PolicyItem) (t : XmlToken)
    (hst : ls.state = .STATE_ALLOW_DENY) (hi : ls.i = some it)
    (hcls : it.iclass ≠ .POLICY_ITEM_CLASS_UNSET)
    (hcat : ls.policy_category = .POLICY_CATEGORY_DEFAULT ∨
            ls.policy_category = .POLICY_CATEGORY_MANDATORY)
    (ht : t = .XML_TAG_CLOSE_EMPTY ∨
          t = .XML_TAG_CLOSE (if it.type = .POLICY_ITEM_ALLOW then "allow" else "deny")) :
    stepLoad ls t = .next { ls with
      p := { ls.p with default_items := it :: ls.p.default_items },
      state := .STATE_POLICY, i := none } := by
  obtain ⟨p0, st, cat, pu, pg, ii, no⟩ := ls
  have h1 : st = .STATE_ALLOW_DENY := hst
  subst h1
  have h2 : ii = some it := hi
  subst h2
  have hcat' : cat = .POLICY_CATEGORY_DEFAULT ∨ cat = .POLICY_CATEGORY_MANDATORY := hcat
  obtain ⟨ty, icl, intf, mem, er, nm, pth, mt, uidf, gidf, uv, gv⟩ := it
  rcases hcat' with rfl | rfl <;> rcases ht with rfl | rfl <;> cases ty <;>
    simp [stepLoad, stepAllowDeny, commitItem, hcls]

/-- C7 witness: the commit at a concrete parse position inside
`<policy context="mandatory">`. -/
theorem c7_default_and_mandatory_prepend_to_default_rules_witness :
    (c7State.state = .STATE_ALLOW_DENY ∧ c7State.i = some c7Item ∧
     c7Item.iclass ≠ .POLICY_ITEM_CLASS_UNSET ∧
     c7State.policy_category = .POLICY_CATEGORY_MANDATORY) ∧
    stepLoad c7State .XML_TAG_CLOSE_EMPTY = .next { c7State with
      p := { c7State.p with default_items := c7Item :: c7State.p.default_items },
      state := .STATE_POLICY, i := none } :=
  ⟨⟨rfl, rfl, by decide, rfl⟩,
   c7_default_and_mandatory_prepend_to_default_rules c7State c7Item
     .XML_TAG_CLOSE_EMPTY rfl rfl (by decide) (Or.inr rfl) (Or.inl rfl)⟩

/-- C10: no load ever touches `mandatory_items`: whenever the full
ordered load (`policy_load`) returns, the `mandatory_items` list of the
resulting store is exactly that of the starting store — the commit rule
routes even `context="mandatory"` records to `default_items`, and no
other code path of the loader writes the mandatory container. -/
theorem c10_mandatory_items_never_touched (fuel : Nat) (p : Policy)
    (base localOverride : ConfFile) (dropins : Except Int (List ConfFile))
    (r : Int) (p' : Policy)
    (h : policy_load fuel p base localOverride dropins = some (.ret r p')) :
    p'.mandatory_items = p.mandatory_items := by
  unfold policy_load at h
  cases h2 : loadSeq fuel p [base, localOverride] with
  | none => rw [h2] at h; cases h
  | some res =>
      rw [h2] at h
      cases res with
      | crash => simp at h
      | ret r2 p2 =>
          have hm2 : p2.mandatory_items = p.mandatory_items :=
            loadSeq_mandatory fuel [base, localOverride] p p2 r2 h2
          cases dropins with
          | error e =>
              simp only [Option.some.injEq, PLResult.ret.injEq] at h
              rw [← h.2]
              exact hm2
          | ok files =>
              exact (loadSeq_mandatory fuel files p2 p' r h).trans hm2

/-- C10 witness: a concrete load over a store with a non-empty
`mandatory_items` list leaves that list unchanged while committing the
document's rule to `default_items`. -/
theorem c10_mandatory_items_never_touched_witness :
    policy_load 20 c10Store (.present c10doc) .absent (.ok []) =
      some (.ret 0 c10StoreAfter) ∧
    c10StoreAfter.mandatory_items = c10Store.mandatory_items :=
  ⟨by decide,
   c10_mandatory_items_never_touched 20 c10Store (.present c10doc) .absent
     (.ok []) 0 c10StoreAfter (by decide)⟩

end BusPolicy
